import Mathlib

/-!
Verification of the geometric layout core of the `lib-p4p` image-to-PDF
library (package `p4p`).  Go `float64` arithmetic is embedded as exact
rational arithmetic over `ℚ`; Go's `int(x)` conversion (truncation toward
zero) is embedded as `truncQ`.  Each Go function of the layout core is
translated to a Lean definition of the same name.
-/

/-- Go conversion `int(x)`: truncation toward zero. -/
def truncQ (q : ℚ) : ℤ := if 0 ≤ q then ⌊q⌋ else ⌈q⌉

/-- Go constant `Point Unit = 1`. -/
def Point : ℚ := 1

/-- Go constant `Inch Unit = 72`. -/
def Inch : ℚ := 72

/-- Go constant `Centimeter Unit = Inch / 2.54`. -/
def Centimeter : ℚ := Inch / 2.54

/-- Go constant `Millimeter Unit = Centimeter / 10`. -/
def Millimeter : ℚ := Centimeter / 10

/-- Go `type PageSize struct { W, H float64; UnitIsPt bool }`. -/
structure PageSize where
  W : ℚ
  H : ℚ
  UnitIsPt : Bool
deriving DecidableEq

/-- Go `func A4() PageSize`. -/
def A4 : PageSize := { W := 595.28, H := 841.89, UnitIsPt := true }

/-- Go `func Letter() PageSize`. -/
def Letter : PageSize := { W := 612, H := 792, UnitIsPt := true }

/-- Go `func (s PageSize) Rotate() PageSize`. -/
def PageSize.Rotate (s : PageSize) : PageSize :=
  { W := s.H, H := s.W, UnitIsPt := s.UnitIsPt }

/-- Go `func (s PageSize) normalize(u Unit) PageSize`.  Note that the Go code
builds the result from a zero-valued `var res PageSize`, so the returned
`UnitIsPt` flag is `false`. -/
def PageSize.normalize (s : PageSize) (u : ℚ) : PageSize :=
  if s.UnitIsPt then { W := s.W / u, H := s.H / u, UnitIsPt := false } else s

/-- Go `type Mode int` with `Center = 0`, `Fit = 1`, `Fill = 2` (iota).  Kept as
`ℤ` because Go admits arbitrary integer values of the type. -/
abbrev Mode := ℤ

/-- Go constant `Center Mode = iota` (0). -/
def Center : Mode := 0

/-- Go constant `Fit` (1). -/
def Fit : Mode := 1

/-- Go constant `Fill` (2). -/
def Fill : Mode := 2

/-- Go `type ImageOptions struct { Mode Mode; Scale float64 }`. -/
structure ImageOptions where
  mode : Mode
  Scale : ℚ
deriving DecidableEq

/-- Abstract record of the calls made to the external `gofpdf` document
writer (an external collaborator; only the call sequence is modelled). -/
inductive PdfOp where
  | addPage
  | registerImage (name : String)
  | placeImage (name : String) (x y w h : ℚ)
deriving DecidableEq

/-- Go `type P4P struct { pdf *gofpdf.Fpdf; imageIndex int; normPageSize PageSize; unit Unit }`. -/
structure P4P where
  pdf : List PdfOp
  imageIndex : ℤ
  normPageSize : PageSize
  unit : ℚ
deriving DecidableEq

/-- The `switch unit` at the head of `func New`: maps a recognized unit to
its `gofpdf` unit string; the `default` branch `panic("unhandled case")` is
embedded as `none`. -/
def unitStr (u : ℚ) : Option String :=
  if u = Point then some ("pt")
  else if u = Millimeter then some ("mm")
  else if u = Centimeter then some ("cm")
  else if u = Inch then some ("in")
  else none

/-- Go `func New(unit Unit, pageSize PageSize) *P4P`; `none` is the panic on an
unrecognized unit. -/
def New (unit : ℚ) (pageSize : PageSize) : Option P4P :=
  (unitStr unit).map fun _ =>
    { pdf := []
      imageIndex := 0
      normPageSize := pageSize.normalize unit
      unit := unit }

/-- Go `func (p *P4P) PageSize() (w, h float64)`. -/
def P4P.PageSize (p : P4P) : ℚ × ℚ := (p.normPageSize.W, p.normPageSize.H)

/-- Named return values `(x, y, w, h float64)` of `CalcImageLayout`. -/
structure LayoutResult where
  x : ℚ
  y : ℚ
  w : ℚ
  h : ℚ
deriving DecidableEq

/-- Go `func (p *P4P) CalcImageLayout(imgWidthPx, imgHeightPx int, opts ImageOptions) (x, y, w, h float64)`.
The two Go `switch opts.Mode` statements are embedded as if-chains on the
integer mode; indeterminate values fall through to the zero values of the
named returns, exactly as in Go. -/
def P4P.CalcImageLayout (p : P4P) (imgWidthPx imgHeightPx : ℤ)
    (opts : ImageOptions) : LayoutResult :=
  let pgW := p.PageSize.1
  let pgH := p.PageSize.2
  let f := p.unit
  let imgW := (imgWidthPx : ℚ) / f
  let imgH := (imgHeightPx : ℚ) / f
  let wh : ℚ × ℚ :=
    if opts.mode = Center then (imgW, imgH)
    else if opts.mode = Fit then
      if imgW / imgH > pgW / pgH then (pgW, pgW * imgH / imgW)
      else (pgH * imgW / imgH, pgH)
    else if opts.mode = Fill then
      if imgW / imgH < pgW / pgH then (pgW, pgW * imgH / imgW)
      else (pgH * imgW / imgH, pgH)
    else (0, 0)
  let w := if opts.Scale > 0 then wh.1 * opts.Scale else wh.1
  let h := if opts.Scale > 0 then wh.2 * opts.Scale else wh.2
  let xy : ℚ × ℚ :=
    if opts.mode = Center ∨ opts.mode = Fit ∨ opts.mode = Fill then
      (pgW / 2 - w / 2, pgH / 2 - h / 2)
    else (0, 0)
  { x := xy.1, y := xy.2, w := w, h := h }

/-- Named return values `(x1, y1, x2, y2 int, mustCrop bool)` of
`CalcImageCropCoords`. -/
structure CropResult where
  x1 : ℤ
  y1 : ℤ
  x2 : ℤ
  y2 : ℤ
  mustCrop : Bool
deriving DecidableEq

/-- Go `func (p *P4P) CalcImageCropCoords(imgWidthPx, imgHeightPx int, opts ImageOptions) (x1, y1, x2, y2 int, mustCrop bool)`. -/
def P4P.CalcImageCropCoords (p : P4P) (imgWidthPx imgHeightPx : ℤ)
    (opts : ImageOptions) : CropResult :=
  let pgW := p.PageSize.1
  let pgH := p.PageSize.2
  let l := p.CalcImageLayout imgWidthPx imgHeightPx opts
  let pxW := l.w / (imgWidthPx : ℚ)
  let pxH := l.h / (imgHeightPx : ℚ)
  let imgX1 := l.x / pxW
  let imgY1 := l.y / pxH
  let imgX2 := imgX1 + (imgWidthPx : ℚ)
  let imgY2 := imgY1 + (imgHeightPx : ℚ)
  let pgWPx := pgW / pxW
  let pgHPx := pgH / pxH
  { x1 := if imgX1 < 0 then truncQ (-imgX1) else 0
    y1 := if imgY1 < 0 then truncQ (-imgY1) else 0
    x2 := if imgX2 > pgWPx + imgX1 then truncQ (pgWPx - imgX1) else imgWidthPx
    y2 := if imgY2 > pgHPx + imgY1 then truncQ (pgHPx - imgY1) else imgHeightPx
    mustCrop := decide (imgX1 < 0) || decide (imgY1 < 0) ||
      decide (imgX2 > pgWPx + imgX1) || decide (imgY2 > pgHPx + imgY1) }

/-- Go `func (p *P4P) addImage(typ string, r io.Reader, opts ImageOptions)`.
The reader and the `gofpdf` registration are external; the decoded image's
size in document units (`info.Width()`, `info.Height()`) is passed in. -/
def P4P.addImage (p : P4P) (infoW infoH : ℚ) (opts : ImageOptions) : P4P :=
  let name := "p4p_image_" ++ toString p.imageIndex
  let p1 : P4P :=
    { p with
      imageIndex := p.imageIndex + 1
      pdf := p.pdf ++ [PdfOp.addPage, PdfOp.registerImage name] }
  let f := p1.unit
  let imgWPx := truncQ (infoW * f)
  let imgHPx := truncQ (infoH * f)
  let l := p1.CalcImageLayout imgWPx imgHPx opts
  { p1 with pdf := p1.pdf ++ [PdfOp.placeImage name l.x l.y l.w l.h] }

/-- State-passing form of the method call `p.CalcImageLayout(...)`: the Go
method reads but never assigns through the receiver, so the post state is
the receiver itself. -/
def P4P.CalcImageLayoutS (p : P4P) (imgWidthPx imgHeightPx : ℤ)
    (opts : ImageOptions) : P4P × LayoutResult :=
  (p, p.CalcImageLayout imgWidthPx imgHeightPx opts)

/-- State-passing form of the method call `p.CalcImageCropCoords(...)`. -/
def P4P.CalcImageCropCoordsS (p : P4P) (imgWidthPx imgHeightPx : ℤ)
    (opts : ImageOptions) : P4P × CropResult :=
  (p, p.CalcImageCropCoords imgWidthPx imgHeightPx opts)

/-- Modelled from the spec: `convertPageSize(pageSize, fromUnit, toUnit)` is
named as a public entry point of the unit model but is not present in the
source files; per the spec's contract it rescales W and H by the ratio of
source unit to target unit, with no clamping or rounding. -/
def convertPageSize (s : PageSize) (fromUnit toUnit : ℚ) : PageSize :=
  { W := s.W * (fromUnit / toUnit), H := s.H * (fromUnit / toUnit),
    UnitIsPt := s.UnitIsPt }

/-- Helper: a `P4P` value with the given (already normalized) page size and
working unit, as produced by `New`. -/
def mkP4P (norm : PageSize) (u : ℚ) : P4P :=
  { pdf := [], imageIndex := 0, normPageSize := norm, unit := u }

/-- The page width expressed in image-pixel units, `pgW / pxW` in
`CalcImageCropCoords`: since `pxW = w / imgWidthPx`, this is
`pgW * imgWidthPx / w`. -/
def P4P.pageWPx (p : P4P) (W H : ℤ) (o : ImageOptions) : ℚ :=
  p.normPageSize.W * (W : ℚ) / (p.CalcImageLayout W H o).w

/-- The page height expressed in image-pixel units, `pgH / pxH`. -/
def P4P.pageHPx (p : P4P) (W H : ℤ) (o : ImageOptions) : ℚ :=
  p.normPageSize.H * (H : ℚ) / (p.CalcImageLayout W H o).h

/-- A recognized mode is one of the three declared constants. -/
def recognizedMode (m : Mode) : Prop := m = Center ∨ m = Fit ∨ m = Fill

/-- The placed image's extent lies entirely within the page (in working
units): the layout rectangle is inside `[0, pgW] × [0, pgH]`. -/
def P4P.layoutWithinPage (p : P4P) (imgWidthPx imgHeightPx : ℤ)
    (opts : ImageOptions) : Prop :=
  let l := p.CalcImageLayout imgWidthPx imgHeightPx opts
  0 ≤ l.x ∧ l.x + l.w ≤ p.normPageSize.W ∧
  0 ≤ l.y ∧ l.y + l.h ≤ p.normPageSize.H

lemma truncQ_of_nonneg {q : ℚ} (h : 0 ≤ q) : truncQ q = ⌊q⌋ := if_pos h

lemma layout_centered (p : P4P) (W H : ℤ) (o : ImageOptions)
    (hm : recognizedMode o.mode) :
    (p.CalcImageLayout W H o).x
        = p.normPageSize.W / 2 - (p.CalcImageLayout W H o).w / 2 ∧
    (p.CalcImageLayout W H o).y
        = p.normPageSize.H / 2 - (p.CalcImageLayout W H o).h / 2 := by
  unfold recognizedMode at hm
  simp only [P4P.CalcImageLayout, P4P.PageSize]
  rw [if_pos hm]
  exact ⟨rfl, rfl⟩

lemma layout_wh_pos (p : P4P) (W H : ℤ) (o : ImageOptions)
    (hpW : 0 < p.normPageSize.W) (hpH : 0 < p.normPageSize.H) (hu : 0 < p.unit)
    (hW : 0 < W) (hH : 0 < H) (hm : recognizedMode o.mode) :
    0 < (p.CalcImageLayout W H o).w ∧ 0 < (p.CalcImageLayout W H o).h := by
  have hWq : (0 : ℚ) < (W : ℚ) := by exact_mod_cast hW
  have hHq : (0 : ℚ) < (H : ℚ) := by exact_mod_cast hH
  rcases hm with h | h | h <;>
    simp only [P4P.CalcImageLayout, P4P.PageSize, h, Center, Fit, Fill] <;>
    norm_num <;>
    split_ifs <;>
    constructor <;>
    positivity

lemma pagePx_pos (p : P4P) (W H : ℤ) (o : ImageOptions)
    (hpW : 0 < p.normPageSize.W) (hpH : 0 < p.normPageSize.H) (hu : 0 < p.unit)
    (hW : 0 < W) (hH : 0 < H) (hm : recognizedMode o.mode) :
    0 < p.pageWPx W H o ∧ 0 < p.pageHPx W H o := by
  obtain ⟨hw, hh⟩ := layout_wh_pos p W H o hpW hpH hu hW hH hm
  have hWq : (0 : ℚ) < (W : ℚ) := by exact_mod_cast hW
  have hHq : (0 : ℚ) < (H : ℚ) := by exact_mod_cast hH
  unfold P4P.pageWPx P4P.pageHPx
  constructor <;> positivity

/-- Because the layout is always centered on the page, the crop computation
reduces to a comparison of the image's pixel size against the page extent in
pixel units: on each axis the crop branches fire exactly when the page is
narrower than the placed image, with exact boundaries `(W ± pageWPx)/2`. -/
lemma CalcImageCropCoords_eq (p : P4P) (W H : ℤ) (o : ImageOptions)
    (hpW : 0 < p.normPageSize.W) (hpH : 0 < p.normPageSize.H) (hu : 0 < p.unit)
    (hW : 0 < W) (hH : 0 < H) (hm : recognizedMode o.mode) :
    p.CalcImageCropCoords W H o =
      { x1 := if p.pageWPx W H o < (W : ℚ) then
            truncQ (((W : ℚ) - p.pageWPx W H o) / 2) else 0
        y1 := if p.pageHPx W H o < (H : ℚ) then
            truncQ (((H : ℚ) - p.pageHPx W H o) / 2) else 0
        x2 := if p.pageWPx W H o < (W : ℚ) then
            truncQ (((W : ℚ) + p.pageWPx W H o) / 2) else W
        y2 := if p.pageHPx W H o < (H : ℚ) then
            truncQ (((H : ℚ) + p.pageHPx W H o) / 2) else H
        mustCrop := decide (p.pageWPx W H o < (W : ℚ)) ||
          decide (p.pageHPx W H o < (H : ℚ)) } := by
  obtain ⟨hx, hy⟩ := layout_centered p W H o hm
  obtain ⟨hw, hh⟩ := layout_wh_pos p W H o hpW hpH hu hW hH hm
  have hWq : (0 : ℚ) < (W : ℚ) := by exact_mod_cast hW
  have hHq : (0 : ℚ) < (H : ℚ) := by exact_mod_cast hH
  have hwne : (p.CalcImageLayout W H o).w ≠ 0 := ne_of_gt hw
  have hhne : (p.CalcImageLayout W H o).h ≠ 0 := ne_of_gt hh
  have hWne : (W : ℚ) ≠ 0 := ne_of_gt hWq
  have hHne : (H : ℚ) ≠ 0 := ne_of_gt hHq
  have himgX1 :
      (p.CalcImageLayout W H o).x / ((p.CalcImageLayout W H o).w / (W : ℚ))
        = (p.pageWPx W H o - (W : ℚ)) / 2 := by
    rw [hx, P4P.pageWPx]
    field_simp
    ring
  have himgY1 :
      (p.CalcImageLayout W H o).y / ((p.CalcImageLayout W H o).h / (H : ℚ))
        = (p.pageHPx W H o - (H : ℚ)) / 2 := by
    rw [hy, P4P.pageHPx]
    field_simp
    ring
  have hpgWPx :
      p.normPageSize.W / ((p.CalcImageLayout W H o).w / (W : ℚ))
        = p.pageWPx W H o := by
    rw [P4P.pageWPx]
    field_simp
  have hpgHPx :
      p.normPageSize.H / ((p.CalcImageLayout W H o).h / (H : ℚ))
        = p.pageHPx W H o := by
    rw [P4P.pageHPx]
    field_simp
  have hcx1 : ((p.pageWPx W H o - (W : ℚ)) / 2 < 0) ↔ p.pageWPx W H o < (W : ℚ) := by
    constructor <;> intro h <;> linarith
  have hcy1 : ((p.pageHPx W H o - (H : ℚ)) / 2 < 0) ↔ p.pageHPx W H o < (H : ℚ) := by
    constructor <;> intro h <;> linarith
  have hcx2 : (p.pageWPx W H o + (p.pageWPx W H o - (W : ℚ)) / 2
        < (p.pageWPx W H o - (W : ℚ)) / 2 + (W : ℚ)) ↔ p.pageWPx W H o < (W : ℚ) := by
    constructor <;> intro h <;> linarith
  have hcy2 : (p.pageHPx W H o + (p.pageHPx W H o - (H : ℚ)) / 2
        < (p.pageHPx W H o - (H : ℚ)) / 2 + (H : ℚ)) ↔ p.pageHPx W H o < (H : ℚ) := by
    constructor <;> intro h <;> linarith
  have hvx1 : -((p.pageWPx W H o - (W : ℚ)) / 2) = ((W : ℚ) - p.pageWPx W H o) / 2 := by
    ring
  have hvy1 : -((p.pageHPx W H o - (H : ℚ)) / 2) = ((H : ℚ) - p.pageHPx W H o) / 2 := by
    ring
  have hvx2 : p.pageWPx W H o - (p.pageWPx W H o - (W : ℚ)) / 2
      = ((W : ℚ) + p.pageWPx W H o) / 2 := by
    ring
  have hvy2 : p.pageHPx W H o - (p.pageHPx W H o - (H : ℚ)) / 2
      = ((H : ℚ) + p.pageHPx W H o) / 2 := by
    ring
  simp only [P4P.CalcImageCropCoords, P4P.PageSize, himgX1, himgY1, hpgWPx, hpgHPx,
    gt_iff_lt, hcx1, hcy1, hcx2, hcy2, hvx1, hvy1, hvx2, hvy2,
    CropResult.mk.injEq]
  refine ⟨trivial, trivial, trivial, trivial, ?_⟩
  by_cases h1 : p.pageWPx W H o < (W : ℚ) <;>
    by_cases h2 : p.pageHPx W H o < (H : ℚ) <;>
    simp [h1, h2]

/-- C1 counterexample: for page A4 in point units, image 316 x 317 px and
mode `Fill` with no scale, `CalcImageCropCoords` does not return the crop
rectangle (58, 18, 257, 298) stated by the claim. -/
theorem cropCoords_A4_fill_not_spec_rect :
    (mkP4P (A4.normalize Point) Point).CalcImageCropCoords 316 317
      { mode := Fill, Scale := 0 } ≠
    { x1 := 58, y1 := 18, x2 := 257, y2 := 298, mustCrop := true } := by
  rw [show (mkP4P (A4.normalize Point) Point).CalcImageCropCoords 316 317
        { mode := Fill, Scale := 0 } =
      { x1 := 45, y1 := 0, x2 := 270, y2 := 317, mustCrop := true } from by
    norm_num [P4P.CalcImageCropCoords, P4P.CalcImageLayout, P4P.PageSize, mkP4P,
      A4, PageSize.normalize, Point, Fill, Fit, Center, truncQ]]
  decide

/-- C1 (amended): for page size A4 (595.28 x 841.89 points), working unit
Point, image pixel dimensions 316 x 317, and ImageOptions with Mode = Fill
and no Scale, `CalcImageCropCoords` returns the crop rectangle
x1 = 45, y1 = 0, x2 = 270, y2 = 317 with mustCrop = true (the values the
repository's own test expects). -/
theorem cropCoords_A4_fill_concrete :
    New Point A4 = some (mkP4P (A4.normalize Point) Point) ∧
    (mkP4P (A4.normalize Point) Point).CalcImageCropCoords 316 317
      { mode := Fill, Scale := 0 } =
    { x1 := 45, y1 := 0, x2 := 270, y2 := 317, mustCrop := true } := by
  constructor
  · norm_num [New, unitStr, mkP4P]
  · norm_num [P4P.CalcImageCropCoords, P4P.CalcImageLayout, P4P.PageSize, mkP4P,
      A4, PageSize.normalize, Point, Fill, Fit, Center, truncQ]

/-- C2 counterexample: for the positive page size 1/2 x 1/2 points, a 1 x 1
px image and mode `Center`, `mustCrop` is true but `x1 = x2 = 0`: the strict
inequality `x1 < x2` claimed for every `mustCrop = true` result fails. -/
theorem cropCoords_strict_fails :
    ((mkP4P { W := 1/2, H := 1/2, UnitIsPt := false } Point).CalcImageCropCoords
        1 1 { mode := Center, Scale := 0 }).mustCrop = true ∧
    ¬ ((mkP4P { W := 1/2, H := 1/2, UnitIsPt := false } Point).CalcImageCropCoords
        1 1 { mode := Center, Scale := 0 }).x1 <
      ((mkP4P { W := 1/2, H := 1/2, UnitIsPt := false } Point).CalcImageCropCoords
        1 1 { mode := Center, Scale := 0 }).x2 := by
  rw [show (mkP4P { W := 1/2, H := 1/2, UnitIsPt := false } Point).CalcImageCropCoords
        1 1 { mode := Center, Scale := 0 } =
      { x1 := 0, y1 := 0, x2 := 0, y2 := 0, mustCrop := true } from by
    norm_num [P4P.CalcImageCropCoords, P4P.CalcImageLayout, P4P.PageSize, mkP4P,
      PageSize.normalize, Point, Fill, Fit, Center, truncQ]]
  exact ⟨rfl, by decide⟩

lemma axis_bounds {k : ℚ} {n : ℤ} (hk : 0 < k) (hn : 0 < n) :
    0 ≤ (if k < (n : ℚ) then truncQ (((n : ℚ) - k) / 2) else 0) ∧
    (if k < (n : ℚ) then truncQ (((n : ℚ) - k) / 2) else 0)
      ≤ (if k < (n : ℚ) then truncQ (((n : ℚ) + k) / 2) else n) ∧
    (if k < (n : ℚ) then truncQ (((n : ℚ) + k) / 2) else n) ≤ n := by
  by_cases h : k < (n : ℚ)
  · simp only [if_pos h]
    rw [truncQ_of_nonneg (by linarith : (0:ℚ) ≤ ((n : ℚ) - k) / 2),
      truncQ_of_nonneg (by linarith : (0:ℚ) ≤ ((n : ℚ) + k) / 2)]
    exact ⟨Int.floor_nonneg.mpr (by linarith),
      Int.floor_le_floor (by linarith),
      le_of_lt (Int.floor_lt.mpr (by linarith))⟩
  · simp only [if_neg h]
    exact ⟨le_refl 0, hn.le, le_refl n⟩

/-- C2 (amended): for every page size with positive width and height, every
positive image pixel dimensions, and every ImageOptions with a recognized
mode, the rectangle returned by `CalcImageCropCoords` satisfies
`0 ≤ x1 ≤ x2 ≤ imgWidthPx` and `0 ≤ y1 ≤ y2 ≤ imgHeightPx` when `mustCrop`
is true (the inequalities degenerate to equality only when the page is
narrower than one placed image pixel on that axis); `mustCrop` is false
exactly when the placed image's extent lies entirely within the page, and
then the returned rectangle is the full image rectangle. -/
theorem cropCoords_bounds (p : P4P) (W H : ℤ) (o : ImageOptions)
    (hpW : 0 < p.normPageSize.W) (hpH : 0 < p.normPageSize.H) (hu : 0 < p.unit)
    (hW : 0 < W) (hH : 0 < H) (hm : recognizedMode o.mode) :
    ((p.CalcImageCropCoords W H o).mustCrop = true →
      0 ≤ (p.CalcImageCropCoords W H o).x1 ∧
      (p.CalcImageCropCoords W H o).x1 ≤ (p.CalcImageCropCoords W H o).x2 ∧
      (p.CalcImageCropCoords W H o).x2 ≤ W ∧
      0 ≤ (p.CalcImageCropCoords W H o).y1 ∧
      (p.CalcImageCropCoords W H o).y1 ≤ (p.CalcImageCropCoords W H o).y2 ∧
      (p.CalcImageCropCoords W H o).y2 ≤ H) ∧
    ((p.CalcImageCropCoords W H o).mustCrop = false ↔ p.layoutWithinPage W H o) ∧
    ((p.CalcImageCropCoords W H o).mustCrop = false →
      p.CalcImageCropCoords W H o
        = { x1 := 0, y1 := 0, x2 := W, y2 := H, mustCrop := false }) := by
  obtain ⟨hx, hy⟩ := layout_centered p W H o hm
  obtain ⟨hw, hh⟩ := layout_wh_pos p W H o hpW hpH hu hW hH hm
  obtain ⟨hkW, hkH⟩ := pagePx_pos p W H o hpW hpH hu hW hH hm
  have hWq : (0 : ℚ) < (W : ℚ) := by exact_mod_cast hW
  have hHq : (0 : ℚ) < (H : ℚ) := by exact_mod_cast hH
  have hiffW : ((W : ℚ) ≤ p.pageWPx W H o)
      ↔ (p.CalcImageLayout W H o).w ≤ p.normPageSize.W := by
    rw [P4P.pageWPx, le_div_iff hw]
    constructor <;> intro h <;> nlinarith
  have hiffH : ((H : ℚ) ≤ p.pageHPx W H o)
      ↔ (p.CalcImageLayout W H o).h ≤ p.normPageSize.H := by
    rw [P4P.pageHPx, le_div_iff hh]
    constructor <;> intro h <;> nlinarith
  have hwithin : p.layoutWithinPage W H o ↔
      ((p.CalcImageLayout W H o).w ≤ p.normPageSize.W ∧
       (p.CalcImageLayout W H o).h ≤ p.normPageSize.H) := by
    simp only [P4P.layoutWithinPage]
    rw [hx, hy]
    constructor
    · rintro ⟨h1, h2, h3, h4⟩
      constructor <;> linarith
    · rintro ⟨h1, h2⟩
      refine ⟨by linarith, by linarith, by linarith, by linarith⟩
  rw [CalcImageCropCoords_eq p W H o hpW hpH hu hW hH hm]
  dsimp only
  obtain ⟨a1, a2, a3⟩ := axis_bounds hkW hW
  obtain ⟨b1, b2, b3⟩ := axis_bounds hkH hH
  refine ⟨fun _ => ⟨a1, a2, a3, b1, b2, b3⟩, ?_, ?_⟩
  · constructor
    · intro hfalse
      have h1 : ¬ p.pageWPx W H o < (W : ℚ) := by
        intro hc
        simp [hc] at hfalse
      have h2 : ¬ p.pageHPx W H o < (H : ℚ) := by
        intro hc
        simp [hc] at hfalse
      exact hwithin.mpr ⟨hiffW.mp (not_lt.mp h1), hiffH.mp (not_lt.mp h2)⟩
    · intro hwp
      obtain ⟨hw1, hh1⟩ := hwithin.mp hwp
      have h1 : ¬ p.pageWPx W H o < (W : ℚ) := not_lt.mpr (hiffW.mpr hw1)
      have h2 : ¬ p.pageHPx W H o < (H : ℚ) := not_lt.mpr (hiffH.mpr hh1)
      simp [h1, h2]
  · intro hfalse
    have h1 : ¬ p.pageWPx W H o < (W : ℚ) := by
      intro hc
      simp [hc] at hfalse
    have h2 : ¬ p.pageHPx W H o < (H : ℚ) := by
      intro hc
      simp [hc] at hfalse
    simp [h1, h2]

/-- Witness for `cropCoords_bounds` at A4 in point units, a 316 x 317 px
image and `Fill` mode. -/
theorem cropCoords_bounds_witness :
    (0 < (mkP4P (A4.normalize Point) Point).normPageSize.W ∧
     0 < (mkP4P (A4.normalize Point) Point).normPageSize.H ∧
     0 < (mkP4P (A4.normalize Point) Point).unit ∧
     (0 : ℤ) < 316 ∧ (0 : ℤ) < 317 ∧
     recognizedMode (ImageOptions.mk Fill 0).mode) ∧
    ((((mkP4P (A4.normalize Point) Point).CalcImageCropCoords 316 317
          (ImageOptions.mk Fill 0)).mustCrop = true →
      0 ≤ ((mkP4P (A4.normalize Point) Point).CalcImageCropCoords 316 317
          (ImageOptions.mk Fill 0)).x1 ∧
      ((mkP4P (A4.normalize Point) Point).CalcImageCropCoords 316 317
          (ImageOptions.mk Fill 0)).x1 ≤
        ((mkP4P (A4.normalize Point) Point).CalcImageCropCoords 316 317
          (ImageOptions.mk Fill 0)).x2 ∧
      ((mkP4P (A4.normalize Point) Point).CalcImageCropCoords 316 317
          (ImageOptions.mk Fill 0)).x2 ≤ 316 ∧
      0 ≤ ((mkP4P (A4.normalize Point) Point).CalcImageCropCoords 316 317
          (ImageOptions.mk Fill 0)).y1 ∧
      ((mkP4P (A4.normalize Point) Point).CalcImageCropCoords 316 317
          (ImageOptions.mk Fill 0)).y1 ≤
        ((mkP4P (A4.normalize Point) Point).CalcImageCropCoords 316 317
          (ImageOptions.mk Fill 0)).y2 ∧
      ((mkP4P (A4.normalize Point) Point).CalcImageCropCoords 316 317
          (ImageOptions.mk Fill 0)).y2 ≤ 317) ∧
    ((((mkP4P (A4.normalize Point) Point).CalcImageCropCoords 316 317
          (ImageOptions.mk Fill 0)).mustCrop = false) ↔
      (mkP4P (A4.normalize Point) Point).layoutWithinPage 316 317
        (ImageOptions.mk Fill 0)) ∧
    (((mkP4P (A4.normalize Point) Point).CalcImageCropCoords 316 317
          (ImageOptions.mk Fill 0)).mustCrop = false →
      (mkP4P (A4.normalize Point) Point).CalcImageCropCoords 316 317
          (ImageOptions.mk Fill 0)
        = { x1 := 0, y1 := 0, x2 := 316, y2 := 317, mustCrop := false })) := by
  constructor
  · exact ⟨by norm_num [mkP4P, A4, PageSize.normalize, Point],
      by norm_num [mkP4P, A4, PageSize.normalize, Point],
      by norm_num [mkP4P, Point], by decide, by decide, Or.inr (Or.inr rfl)⟩
  · exact cropCoords_bounds (mkP4P (A4.normalize Point) Point) 316 317
      (ImageOptions.mk Fill 0)
      (by norm_num [mkP4P, A4, PageSize.normalize, Point])
      (by norm_num [mkP4P, A4, PageSize.normalize, Point])
      (by norm_num [mkP4P, Point]) (by decide) (by decide) (Or.inr (Or.inr rfl))

/-- C3 counterexample: with a positive page and positive image dimensions but
an unrecognized placement mode (3), `CalcImageLayout` does not abort with an
invalid-input signal: it completes and silently returns the degenerate
all-zero geometry.  Likewise a zero image width in `Center` mode yields
zero-width geometry rather than a failure. -/
theorem layout_no_input_validation :
    (mkP4P { W := 595.28, H := 841.89, UnitIsPt := false } Point).CalcImageLayout
        316 317 { mode := 3, Scale := 0 } =
      { x := 0, y := 0, w := 0, h := 0 } ∧
    (mkP4P { W := 595.28, H := 841.89, UnitIsPt := false } Point).CalcImageLayout
        0 317 { mode := Center, Scale := 0 } =
      { x := 595.28 / 2, y := 841.89 / 2 - 317 / 2, w := 0, h := 317 } := by
  constructor <;>
    norm_num [P4P.CalcImageLayout, P4P.PageSize, mkP4P, Point, Center, Fit, Fill]

/-- C3 (amended): the only precondition that fails loudly is the unit check
in `New` (the `panic("unhandled case")` branch, embedded as `none`); zero
or degenerate dimensions and unrecognized placement modes are not checked:
`CalcImageLayout` completes normally and silently returns degenerate
geometry. -/
theorem new_panics_on_unknown_unit :
    unitStr 2 = none ∧ New 2 A4 = none ∧
    unitStr Point = some ("pt") ∧
    (mkP4P { W := 595.28, H := 841.89, UnitIsPt := false } Point).CalcImageLayout
        316 317 { mode := 3, Scale := 0 } = { x := 0, y := 0, w := 0, h := 0 } := by
  refine ⟨?_, ?_, ?_, ?_⟩
  · norm_num [unitStr, Point, Millimeter, Centimeter, Inch]
  · norm_num [New, unitStr, Point, Millimeter, Centimeter, Inch]
  · norm_num [unitStr, Point]
  · norm_num [P4P.CalcImageLayout, P4P.PageSize, mkP4P, Point, Center, Fit, Fill]

/-- C4: for every positive page size and positive image pixel dimensions,
`CalcImageLayout` in `Fit` mode with no explicit positive Scale returns a
size (w, h) with w ≤ pageW and h ≤ pageH, preserving the image aspect ratio
exactly (`w * imgHeightPx = h * imgWidthPx`); the wider-than-page case
clamps the width to the page width, otherwise the height is clamped to the
page height. -/
theorem fit_layout (p : P4P) (W H : ℤ) (s : ℚ)
    (hpW : 0 < p.normPageSize.W) (hpH : 0 < p.normPageSize.H) (hu : 0 < p.unit)
    (hW : 0 < W) (hH : 0 < H) (hs : s ≤ 0) :
    (p.CalcImageLayout W H { mode := Fit, Scale := s }).w ≤ p.normPageSize.W ∧
    (p.CalcImageLayout W H { mode := Fit, Scale := s }).h ≤ p.normPageSize.H ∧
    (p.CalcImageLayout W H { mode := Fit, Scale := s }).w * (H : ℚ)
      = (p.CalcImageLayout W H { mode := Fit, Scale := s }).h * (W : ℚ) ∧
    (p.normPageSize.W / p.normPageSize.H
        < ((W : ℚ) / p.unit) / ((H : ℚ) / p.unit) →
      (p.CalcImageLayout W H { mode := Fit, Scale := s }).w = p.normPageSize.W) ∧
    (¬ (p.normPageSize.W / p.normPageSize.H
        < ((W : ℚ) / p.unit) / ((H : ℚ) / p.unit)) →
      (p.CalcImageLayout W H { mode := Fit, Scale := s }).h = p.normPageSize.H) := by
  have hWq : (0 : ℚ) < (W : ℚ) := by exact_mod_cast hW
  have hHq : (0 : ℚ) < (H : ℚ) := by exact_mod_cast hH
  have himgW : (0 : ℚ) < (W : ℚ) / p.unit := div_pos hWq hu
  have himgH : (0 : ℚ) < (H : ℚ) / p.unit := div_pos hHq hu
  have hune : p.unit ≠ 0 := ne_of_gt hu
  have hWne : (W : ℚ) ≠ 0 := ne_of_gt hWq
  have hHne : (H : ℚ) ≠ 0 := ne_of_gt hHq
  simp only [P4P.CalcImageLayout, P4P.PageSize, Center, Fit, Fill]
  norm_num [if_neg (not_lt.mpr hs)]
  split_ifs with hasp
  · dsimp only
    rw [div_lt_div_iff hpH himgH] at hasp
    refine ⟨le_refl _, ?_, ?_, fun _ => rfl, fun hcon => ?_⟩
    · rw [div_le_iff himgW]
      linarith
    · field_simp
    · exfalso
      rw [div_le_div_iff himgH hpH] at hcon
      linarith
  · dsimp only
    rw [not_lt, div_le_div_iff himgH hpH] at hasp
    refine ⟨?_, le_refl _, ?_, fun hcon => ?_, fun _ => rfl⟩
    · rw [div_le_iff himgH]
      linarith
    · field_simp
    · exfalso
      rw [div_lt_div_iff hpH himgH] at hcon
      linarith

/-- Witness for `fit_layout` at A4 in point units, a 316 x 317 px image and
no scale. -/
theorem fit_layout_witness :
    (0 < (mkP4P (A4.normalize Point) Point).normPageSize.W ∧
     0 < (mkP4P (A4.normalize Point) Point).normPageSize.H ∧
     0 < (mkP4P (A4.normalize Point) Point).unit ∧
     (0 : ℤ) < 316 ∧ (0 : ℤ) < 317 ∧ (0 : ℚ) ≤ 0) ∧
    (((mkP4P (A4.normalize Point) Point).CalcImageLayout 316 317
        { mode := Fit, Scale := 0 }).w
        ≤ (mkP4P (A4.normalize Point) Point).normPageSize.W ∧
     ((mkP4P (A4.normalize Point) Point).CalcImageLayout 316 317
        { mode := Fit, Scale := 0 }).h
        ≤ (mkP4P (A4.normalize Point) Point).normPageSize.H ∧
     ((mkP4P (A4.normalize Point) Point).CalcImageLayout 316 317
        { mode := Fit, Scale := 0 }).w * (317 : ℚ)
        = ((mkP4P (A4.normalize Point) Point).CalcImageLayout 316 317
        { mode := Fit, Scale := 0 }).h * (316 : ℚ) ∧
     ((mkP4P (A4.normalize Point) Point).normPageSize.W
          / (mkP4P (A4.normalize Point) Point).normPageSize.H
        < ((316 : ℚ) / (mkP4P (A4.normalize Point) Point).unit)
          / ((317 : ℚ) / (mkP4P (A4.normalize Point) Point).unit) →
      ((mkP4P (A4.normalize Point) Point).CalcImageLayout 316 317
        { mode := Fit, Scale := 0 }).w
        = (mkP4P (A4.normalize Point) Point).normPageSize.W) ∧
     (¬ ((mkP4P (A4.normalize Point) Point).normPageSize.W
          / (mkP4P (A4.normalize Point) Point).normPageSize.H
        < ((316 : ℚ) / (mkP4P (A4.normalize Point) Point).unit)
          / ((317 : ℚ) / (mkP4P (A4.normalize Point) Point).unit)) →
      ((mkP4P (A4.normalize Point) Point).CalcImageLayout 316 317
        { mode := Fit, Scale := 0 }).h
        = (mkP4P (A4.normalize Point) Point).normPageSize.H)) := by
  constructor
  · exact ⟨by norm_num [mkP4P, A4, PageSize.normalize, Point],
      by norm_num [mkP4P, A4, PageSize.normalize, Point],
      by norm_num [mkP4P, Point], by decide, by decide, le_refl 0⟩
  · exact fit_layout (mkP4P (A4.normalize Point) Point) 316 317 0
      (by norm_num [mkP4P, A4, PageSize.normalize, Point])
      (by norm_num [mkP4P, A4, PageSize.normalize, Point])
      (by norm_num [mkP4P, Point]) (by decide) (by decide) (le_refl 0)

/-- C5: for every positive page size and positive image pixel dimensions,
`CalcImageLayout` in `Fill` mode with no explicit positive Scale returns a
size (w, h) that equals the page size on at least one axis, is at least the
page size on both axes, and preserves the image aspect ratio exactly
(`w * imgHeightPx = h * imgWidthPx`). -/
theorem fill_layout (p : P4P) (W H : ℤ) (s : ℚ)
    (hpW : 0 < p.normPageSize.W) (hpH : 0 < p.normPageSize.H) (hu : 0 < p.unit)
    (hW : 0 < W) (hH : 0 < H) (hs : s ≤ 0) :
    ((p.CalcImageLayout W H { mode := Fill, Scale := s }).w = p.normPageSize.W ∨
     (p.CalcImageLayout W H { mode := Fill, Scale := s }).h = p.normPageSize.H) ∧
    p.normPageSize.W ≤ (p.CalcImageLayout W H { mode := Fill, Scale := s }).w ∧
    p.normPageSize.H ≤ (p.CalcImageLayout W H { mode := Fill, Scale := s }).h ∧
    (p.CalcImageLayout W H { mode := Fill, Scale := s }).w * (H : ℚ)
      = (p.CalcImageLayout W H { mode := Fill, Scale := s }).h * (W : ℚ) := by
  have hWq : (0 : ℚ) < (W : ℚ) := by exact_mod_cast hW
  have hHq : (0 : ℚ) < (H : ℚ) := by exact_mod_cast hH
  have himgW : (0 : ℚ) < (W : ℚ) / p.unit := div_pos hWq hu
  have himgH : (0 : ℚ) < (H : ℚ) / p.unit := div_pos hHq hu
  have hune : p.unit ≠ 0 := ne_of_gt hu
  have hWne : (W : ℚ) ≠ 0 := ne_of_gt hWq
  have hHne : (H : ℚ) ≠ 0 := ne_of_gt hHq
  simp only [P4P.CalcImageLayout, P4P.PageSize, Center, Fit, Fill]
  norm_num [if_neg (not_lt.mpr hs)]
  split_ifs with hasp
  · dsimp only
    rw [div_lt_div_iff himgH hpH] at hasp
    refine ⟨Or.inl rfl, le_refl _, ?_, ?_⟩
    · rw [le_div_iff himgW]
      linarith
    · field_simp
  · dsimp only
    rw [not_lt, div_le_div_iff hpH himgH] at hasp
    refine ⟨Or.inr rfl, ?_, le_refl _, ?_⟩
    · rw [le_div_iff himgH]
      linarith
    · field_simp

/-- Witness for `fill_layout` at A4 in point units, a 316 x 317 px image and
no scale. -/
theorem fill_layout_witness :
    (0 < (mkP4P (A4.normalize Point) Point).normPageSize.W ∧
     0 < (mkP4P (A4.normalize Point) Point).normPageSize.H ∧
     0 < (mkP4P (A4.normalize Point) Point).unit ∧
     (0 : ℤ) < 316 ∧ (0 : ℤ) < 317 ∧ (0 : ℚ) ≤ 0) ∧
    ((((mkP4P (A4.normalize Point) Point).CalcImageLayout 316 317
        { mode := Fill, Scale := 0 }).w
        = (mkP4P (A4.normalize Point) Point).normPageSize.W ∨
      ((mkP4P (A4.normalize Point) Point).CalcImageLayout 316 317
        { mode := Fill, Scale := 0 }).h
        = (mkP4P (A4.normalize Point) Point).normPageSize.H) ∧
     (mkP4P (A4.normalize Point) Point).normPageSize.W
        ≤ ((mkP4P (A4.normalize Point) Point).CalcImageLayout 316 317
        { mode := Fill, Scale := 0 }).w ∧
     (mkP4P (A4.normalize Point) Point).normPageSize.H
        ≤ ((mkP4P (A4.normalize Point) Point).CalcImageLayout 316 317
        { mode := Fill, Scale := 0 }).h ∧
     ((mkP4P (A4.normalize Point) Point).CalcImageLayout 316 317
        { mode := Fill, Scale := 0 }).w * (317 : ℚ)
        = ((mkP4P (A4.normalize Point) Point).CalcImageLayout 316 317
        { mode := Fill, Scale := 0 }).h * (316 : ℚ)) := by
  constructor
  · exact ⟨by norm_num [mkP4P, A4, PageSize.normalize, Point],
      by norm_num [mkP4P, A4, PageSize.normalize, Point],
      by norm_num [mkP4P, Point], by decide, by decide, le_refl 0⟩
  · exact fill_layout (mkP4P (A4.normalize Point) Point) 316 317 0
      (by norm_num [mkP4P, A4, PageSize.normalize, Point])
      (by norm_num [mkP4P, A4, PageSize.normalize, Point])
      (by norm_num [mkP4P, Point]) (by decide) (by decide) (le_refl 0)

/-- C6: `CalcImageLayout` in `Center` mode with no explicit positive Scale
returns exactly the image pixel dimensions divided by the working unit,
with no dependence on the page size; in the concrete A4/Point scenario with
a 316 x 317 px image the size is 316 x 317 points and
`CalcImageCropCoords` reports `mustCrop = false` with the full rectangle. -/
theorem center_layout (p : P4P) (W H : ℤ) (s : ℚ)
    (hpW : 0 < p.normPageSize.W) (hpH : 0 < p.normPageSize.H) (hu : 0 < p.unit)
    (hW : 0 < W) (hH : 0 < H) (hs : s ≤ 0) :
    ((p.CalcImageLayout W H { mode := Center, Scale := s }).w
        = (W : ℚ) / p.unit ∧
     (p.CalcImageLayout W H { mode := Center, Scale := s }).h
        = (H : ℚ) / p.unit) ∧
    (mkP4P (A4.normalize Point) Point).CalcImageLayout 316 317
        { mode := Center, Scale := 0 }
      = { x := 595.28 / 2 - 316 / 2, y := 841.89 / 2 - 317 / 2,
          w := 316, h := 317 } ∧
    (mkP4P (A4.normalize Point) Point).CalcImageCropCoords 316 317
        { mode := Center, Scale := 0 }
      = { x1 := 0, y1 := 0, x2 := 316, y2 := 317, mustCrop := false } := by
  refine ⟨?_, ?_, ?_⟩
  · simp only [P4P.CalcImageLayout, P4P.PageSize, Center, Fit, Fill]
    norm_num [if_neg (not_lt.mpr hs)]
  · norm_num [P4P.CalcImageLayout, P4P.PageSize, mkP4P, A4, PageSize.normalize,
      Point, Center, Fit, Fill]
  · norm_num [P4P.CalcImageCropCoords, P4P.CalcImageLayout, P4P.PageSize, mkP4P,
      A4, PageSize.normalize, Point, Center, Fit, Fill, truncQ]

/-- Witness for `center_layout` at A4 in point units, a 316 x 317 px image
and no scale. -/
theorem center_layout_witness :
    (0 < (mkP4P (A4.normalize Point) Point).normPageSize.W ∧
     0 < (mkP4P (A4.normalize Point) Point).normPageSize.H ∧
     0 < (mkP4P (A4.normalize Point) Point).unit ∧
     (0 : ℤ) < 316 ∧ (0 : ℤ) < 317 ∧ (0 : ℚ) ≤ 0) ∧
    ((((mkP4P (A4.normalize Point) Point).CalcImageLayout 316 317
        { mode := Center, Scale := 0 }).w
        = (316 : ℚ) / (mkP4P (A4.normalize Point) Point).unit ∧
      ((mkP4P (A4.normalize Point) Point).CalcImageLayout 316 317
        { mode := Center, Scale := 0 }).h
        = (317 : ℚ) / (mkP4P (A4.normalize Point) Point).unit) ∧
     (mkP4P (A4.normalize Point) Point).CalcImageLayout 316 317
        { mode := Center, Scale := 0 }
      = { x := 595.28 / 2 - 316 / 2, y := 841.89 / 2 - 317 / 2,
          w := 316, h := 317 } ∧
     (mkP4P (A4.normalize Point) Point).CalcImageCropCoords 316 317
        { mode := Center, Scale := 0 }
      = { x1 := 0, y1 := 0, x2 := 316, y2 := 317, mustCrop := false }) := by
  constructor
  · exact ⟨by norm_num [mkP4P, A4, PageSize.normalize, Point],
      by norm_num [mkP4P, A4, PageSize.normalize, Point],
      by norm_num [mkP4P, Point], by decide, by decide, le_refl 0⟩
  · exact center_layout (mkP4P (A4.normalize Point) Point) 316 317 0
      (by norm_num [mkP4P, A4, PageSize.normalize, Point])
      (by norm_num [mkP4P, A4, PageSize.normalize, Point])
      (by norm_num [mkP4P, Point]) (by decide) (by decide) (le_refl 0)

/-- C7: converting a positive page size from unit u1 to u2 and back
reproduces the original exactly (over ℚ; in float64 this is the "within
tolerance" statement), a single conversion rescales W and H by the ratio of
source to target unit with no clamping or rounding, and for pt-flagged
sizes the source's `normalize` agrees with conversion from `Point`. -/
theorem convert_roundtrip (s : PageSize) (u1 u2 : ℚ)
    (hW : 0 < s.W) (hH : 0 < s.H) (hu1 : 0 < u1) (hu2 : 0 < u2) :
    convertPageSize (convertPageSize s u1 u2) u2 u1 = s ∧
    (convertPageSize s u1 u2).W = s.W * (u1 / u2) ∧
    (convertPageSize s u1 u2).H = s.H * (u1 / u2) ∧
    (s.UnitIsPt = true →
      (s.normalize u2).W = (convertPageSize s Point u2).W ∧
      (s.normalize u2).H = (convertPageSize s Point u2).H) := by
  have h1 : u1 ≠ 0 := ne_of_gt hu1
  have h2 : u2 ≠ 0 := ne_of_gt hu2
  refine ⟨?_, rfl, rfl, ?_⟩
  · obtain ⟨W, H, flag⟩ := s
    simp only [convertPageSize, PageSize.mk.injEq]
    refine ⟨?_, ?_, by trivial⟩ <;> field_simp
  · intro hpt
    simp only [PageSize.normalize, hpt, if_true, convertPageSize, Point]
    constructor <;> field_simp

/-- Witness for `convert_roundtrip` at A4 between millimeters and inches. -/
theorem convert_roundtrip_witness :
    (0 < A4.W ∧ 0 < A4.H ∧ 0 < Millimeter ∧ 0 < Inch) ∧
    (convertPageSize (convertPageSize A4 Millimeter Inch) Inch Millimeter = A4 ∧
     (convertPageSize A4 Millimeter Inch).W = A4.W * (Millimeter / Inch) ∧
     (convertPageSize A4 Millimeter Inch).H = A4.H * (Millimeter / Inch) ∧
     (A4.UnitIsPt = true →
       (A4.normalize Inch).W = (convertPageSize A4 Point Inch).W ∧
       (A4.normalize Inch).H = (convertPageSize A4 Point Inch).H)) := by
  constructor
  · exact ⟨by norm_num [A4], by norm_num [A4],
      by norm_num [Millimeter, Centimeter, Inch], by norm_num [Inch]⟩
  · exact convert_roundtrip A4 Millimeter Inch (by norm_num [A4])
      (by norm_num [A4]) (by norm_num [Millimeter, Centimeter, Inch])
      (by norm_num [Inch])

lemma axis_trunc {k : ℚ} {n : ℤ} (hk : 0 < k) (h : k < (n : ℚ)) :
    truncQ (((n : ℚ) - k) / 2) = ⌊((n : ℚ) - k) / 2⌋ ∧
    ((n : ℚ) - k) / 2 - 1 < ((truncQ (((n : ℚ) - k) / 2)) : ℚ) ∧
    ((truncQ (((n : ℚ) - k) / 2)) : ℚ) ≤ ((n : ℚ) - k) / 2 ∧
    truncQ (((n : ℚ) + k) / 2) = ⌊((n : ℚ) + k) / 2⌋ ∧
    ((n : ℚ) + k) / 2 - 1 < ((truncQ (((n : ℚ) + k) / 2)) : ℚ) ∧
    ((truncQ (((n : ℚ) + k) / 2)) : ℚ) ≤ ((n : ℚ) + k) / 2 := by
  rw [truncQ_of_nonneg (by linarith : (0:ℚ) ≤ ((n : ℚ) - k) / 2),
    truncQ_of_nonneg (by linarith : (0:ℚ) ≤ ((n : ℚ) + k) / 2)]
  exact ⟨rfl, Int.sub_one_lt_floor _, Int.floor_le _, rfl,
    Int.sub_one_lt_floor _, Int.floor_le _⟩

/-- C8: the crop coordinates are the truncation toward zero of the exact
rational boundaries.  On each axis the crop branches fire exactly when the
page extent in pixel units (`pageWPx`) is smaller than the image, the exact
boundaries of the visible pixel range are `(W - pageWPx)/2` and
`(W + pageWPx)/2`, and each returned coordinate lies within one pixel below
its exact boundary (`exact - 1 < returned ≤ exact`): every pixel wholly
outside the page is cropped, and at most one partially visible pixel more is
cropped on the right/bottom edge. -/
theorem cropCoords_truncation (p : P4P) (W H : ℤ) (o : ImageOptions)
    (hpW : 0 < p.normPageSize.W) (hpH : 0 < p.normPageSize.H) (hu : 0 < p.unit)
    (hW : 0 < W) (hH : 0 < H) (hm : recognizedMode o.mode) :
    (p.pageWPx W H o < (W : ℚ) →
      (p.CalcImageCropCoords W H o).x1
          = truncQ (((W : ℚ) - p.pageWPx W H o) / 2) ∧
      ((W : ℚ) - p.pageWPx W H o) / 2 - 1
          < (((p.CalcImageCropCoords W H o).x1 : ℤ) : ℚ) ∧
      (((p.CalcImageCropCoords W H o).x1 : ℤ) : ℚ)
          ≤ ((W : ℚ) - p.pageWPx W H o) / 2 ∧
      (p.CalcImageCropCoords W H o).x2
          = truncQ (((W : ℚ) + p.pageWPx W H o) / 2) ∧
      ((W : ℚ) + p.pageWPx W H o) / 2 - 1
          < (((p.CalcImageCropCoords W H o).x2 : ℤ) : ℚ) ∧
      (((p.CalcImageCropCoords W H o).x2 : ℤ) : ℚ)
          ≤ ((W : ℚ) + p.pageWPx W H o) / 2) ∧
    (¬ p.pageWPx W H o < (W : ℚ) →
      (p.CalcImageCropCoords W H o).x1 = 0 ∧
      (p.CalcImageCropCoords W H o).x2 = W) ∧
    (p.pageHPx W H o < (H : ℚ) →
      (p.CalcImageCropCoords W H o).y1
          = truncQ (((H : ℚ) - p.pageHPx W H o) / 2) ∧
      ((H : ℚ) - p.pageHPx W H o) / 2 - 1
          < (((p.CalcImageCropCoords W H o).y1 : ℤ) : ℚ) ∧
      (((p.CalcImageCropCoords W H o).y1 : ℤ) : ℚ)
          ≤ ((H : ℚ) - p.pageHPx W H o) / 2 ∧
      (p.CalcImageCropCoords W H o).y2
          = truncQ (((H : ℚ) + p.pageHPx W H o) / 2) ∧
      ((H : ℚ) + p.pageHPx W H o) / 2 - 1
          < (((p.CalcImageCropCoords W H o).y2 : ℤ) : ℚ) ∧
      (((p.CalcImageCropCoords W H o).y2 : ℤ) : ℚ)
          ≤ ((H : ℚ) + p.pageHPx W H o) / 2) ∧
    (¬ p.pageHPx W H o < (H : ℚ) →
      (p.CalcImageCropCoords W H o).y1 = 0 ∧
      (p.CalcImageCropCoords W H o).y2 = H) := by
  obtain ⟨hkW, hkH⟩ := pagePx_pos p W H o hpW hpH hu hW hH hm
  rw [CalcImageCropCoords_eq p W H o hpW hpH hu hW hH hm]
  dsimp only
  refine ⟨?_, ?_, ?_, ?_⟩
  · intro h1
    obtain ⟨e1, b1, b2, e2, b3, b4⟩ := axis_trunc hkW h1
    simp only [if_pos h1]
    exact ⟨by trivial, b1, b2, by trivial, b3, b4⟩
  · intro h1
    simp only [if_neg h1]
    exact ⟨by trivial, by trivial⟩
  · intro h2
    obtain ⟨e1, b1, b2, e2, b3, b4⟩ := axis_trunc hkH h2
    simp only [if_pos h2]
    exact ⟨by trivial, b1, b2, by trivial, b3, b4⟩
  · intro h2
    simp only [if_neg h2]
    exact ⟨by trivial, by trivial⟩

/-- Witness for `cropCoords_truncation` at A4 in point units, a 316 x 317 px
image and `Fill` mode. -/
theorem cropCoords_truncation_witness :
    (0 < (mkP4P (A4.normalize Point) Point).normPageSize.W ∧
     0 < (mkP4P (A4.normalize Point) Point).normPageSize.H ∧
     0 < (mkP4P (A4.normalize Point) Point).unit ∧
     (0 : ℤ) < 316 ∧ (0 : ℤ) < 317 ∧
     recognizedMode (ImageOptions.mk Fill 0).mode) ∧
    ((mkP4P (A4.normalize Point) Point).pageWPx 316 317 (ImageOptions.mk Fill 0) < (316 : ℚ) →
      ((mkP4P (A4.normalize Point) Point).CalcImageCropCoords 316 317
        (ImageOptions.mk Fill 0)).x1
          = truncQ (((316 : ℚ) - (mkP4P (A4.normalize Point) Point).pageWPx 316 317 (ImageOptions.mk Fill 0)) / 2) ∧
      ((316 : ℚ) - (mkP4P (A4.normalize Point) Point).pageWPx 316 317 (ImageOptions.mk Fill 0)) / 2 - 1
          < ((((mkP4P (A4.normalize Point) Point).CalcImageCropCoords 316 317
        (ImageOptions.mk Fill 0)).x1 : ℤ) : ℚ) ∧
      ((((mkP4P (A4.normalize Point) Point).CalcImageCropCoords 316 317
        (ImageOptions.mk Fill 0)).x1 : ℤ) : ℚ)
          ≤ ((316 : ℚ) - (mkP4P (A4.normalize Point) Point).pageWPx 316 317 (ImageOptions.mk Fill 0)) / 2 ∧
      ((mkP4P (A4.normalize Point) Point).CalcImageCropCoords 316 317
        (ImageOptions.mk Fill 0)).x2
          = truncQ (((316 : ℚ) + (mkP4P (A4.normalize Point) Point).pageWPx 316 317 (ImageOptions.mk Fill 0)) / 2) ∧
      ((316 : ℚ) + (mkP4P (A4.normalize Point) Point).pageWPx 316 317 (ImageOptions.mk Fill 0)) / 2 - 1
          < ((((mkP4P (A4.normalize Point) Point).CalcImageCropCoords 316 317
        (ImageOptions.mk Fill 0)).x2 : ℤ) : ℚ) ∧
      ((((mkP4P (A4.normalize Point) Point).CalcImageCropCoords 316 317
        (ImageOptions.mk Fill 0)).x2 : ℤ) : ℚ)
          ≤ ((316 : ℚ) + (mkP4P (A4.normalize Point) Point).pageWPx 316 317 (ImageOptions.mk Fill 0)) / 2) ∧
    (¬ (mkP4P (A4.normalize Point) Point).pageWPx 316 317 (ImageOptions.mk Fill 0) < (316 : ℚ) →
      ((mkP4P (A4.normalize Point) Point).CalcImageCropCoords 316 317
        (ImageOptions.mk Fill 0)).x1 = 0 ∧
      ((mkP4P (A4.normalize Point) Point).CalcImageCropCoords 316 317
        (ImageOptions.mk Fill 0)).x2 = 316) ∧
    ((mkP4P (A4.normalize Point) Point).pageHPx 316 317 (ImageOptions.mk Fill 0) < (317 : ℚ) →
      ((mkP4P (A4.normalize Point) Point).CalcImageCropCoords 316 317
        (ImageOptions.mk Fill 0)).y1
          = truncQ (((317 : ℚ) - (mkP4P (A4.normalize Point) Point).pageHPx 316 317 (ImageOptions.mk Fill 0)) / 2) ∧
      ((317 : ℚ) - (mkP4P (A4.normalize Point) Point).pageHPx 316 317 (ImageOptions.mk Fill 0)) / 2 - 1
          < ((((mkP4P (A4.normalize Point) Point).CalcImageCropCoords 316 317
        (ImageOptions.mk Fill 0)).y1 : ℤ) : ℚ) ∧
      ((((mkP4P (A4.normalize Point) Point).CalcImageCropCoords 316 317
        (ImageOptions.mk Fill 0)).y1 : ℤ) : ℚ)
          ≤ ((317 : ℚ) - (mkP4P (A4.normalize Point) Point).pageHPx 316 317 (ImageOptions.mk Fill 0)) / 2 ∧
      ((mkP4P (A4.normalize Point) Point).CalcImageCropCoords 316 317
        (ImageOptions.mk Fill 0)).y2
          = truncQ (((317 : ℚ) + (mkP4P (A4.normalize Point) Point).pageHPx 316 317 (ImageOptions.mk Fill 0)) / 2) ∧
      ((317 : ℚ) + (mkP4P (A4.normalize Point) Point).pageHPx 316 317 (ImageOptions.mk Fill 0)) / 2 - 1
          < ((((mkP4P (A4.normalize Point) Point).CalcImageCropCoords 316 317
        (ImageOptions.mk Fill 0)).y2 : ℤ) : ℚ) ∧
      ((((mkP4P (A4.normalize Point) Point).CalcImageCropCoords 316 317
        (ImageOptions.mk Fill 0)).y2 : ℤ) : ℚ)
          ≤ ((317 : ℚ) + (mkP4P (A4.normalize Point) Point).pageHPx 316 317 (ImageOptions.mk Fill 0)) / 2) ∧
    (¬ (mkP4P (A4.normalize Point) Point).pageHPx 316 317 (ImageOptions.mk Fill 0) < (317 : ℚ) →
      ((mkP4P (A4.normalize Point) Point).CalcImageCropCoords 316 317
        (ImageOptions.mk Fill 0)).y1 = 0 ∧
      ((mkP4P (A4.normalize Point) Point).CalcImageCropCoords 316 317
        (ImageOptions.mk Fill 0)).y2 = 317) := by
  constructor
  · exact ⟨by norm_num [mkP4P, A4, PageSize.normalize, Point],
      by norm_num [mkP4P, A4, PageSize.normalize, Point],
      by norm_num [mkP4P, Point], by decide, by decide, Or.inr (Or.inr rfl)⟩
  · exact cropCoords_truncation (mkP4P (A4.normalize Point) Point) 316 317
      (ImageOptions.mk Fill 0)
      (by norm_num [mkP4P, A4, PageSize.normalize, Point])
      (by norm_num [mkP4P, A4, PageSize.normalize, Point])
      (by norm_num [mkP4P, Point]) (by decide) (by decide) (Or.inr (Or.inr rfl))

/-- C9: `CalcImageLayout` is a pure function of the page size, the working
unit and its arguments: two `P4P` values agreeing on `normPageSize` and
`unit` (regardless of `pdf` and of the `imageIndex` counter) produce
identical layout results. -/
theorem layout_no_state_dependence (p q : P4P) (W H : ℤ) (o : ImageOptions)
    (hps : p.normPageSize = q.normPageSize) (hun : p.unit = q.unit) :
    p.CalcImageLayout W H o = q.CalcImageLayout W H o := by
  simp only [P4P.CalcImageLayout, P4P.PageSize, hps, hun]

/-- Witness for `layout_no_state_dependence`: two states that differ in the
`pdf` call log and in `imageIndex` yield the same layout. -/
theorem layout_no_state_dependence_witness :
    ((mkP4P (A4.normalize Point) Point).normPageSize
        = (P4P.mk [PdfOp.addPage] 5 (A4.normalize Point) Point).normPageSize ∧
     (mkP4P (A4.normalize Point) Point).unit
        = (P4P.mk [PdfOp.addPage] 5 (A4.normalize Point) Point).unit) ∧
    (mkP4P (A4.normalize Point) Point).CalcImageLayout 316 317
        (ImageOptions.mk Fit 0)
      = (P4P.mk [PdfOp.addPage] 5 (A4.normalize Point) Point).CalcImageLayout
          316 317 (ImageOptions.mk Fit 0) :=
  ⟨⟨rfl, rfl⟩,
    layout_no_state_dependence (mkP4P (A4.normalize Point) Point)
      (P4P.mk [PdfOp.addPage] 5 (A4.normalize Point) Point) 316 317
      (ImageOptions.mk Fit 0) rfl rfl⟩

/-- C10: the two pure computations leave the `P4P` state untouched (the Go
methods never assign through the receiver), and `addImage` increments
`imageIndex` by exactly one while leaving `normPageSize` and `unit`
unchanged. -/
theorem calc_methods_frame (p : P4P) (W H : ℤ) (o : ImageOptions)
    (iw ih : ℚ) :
    (p.CalcImageLayoutS W H o).1 = p ∧
    (p.CalcImageCropCoordsS W H o).1 = p ∧
    (p.addImage iw ih o).imageIndex = p.imageIndex + 1 ∧
    (p.addImage iw ih o).normPageSize = p.normPageSize ∧
    (p.addImage iw ih o).unit = p.unit :=
  ⟨rfl, rfl, rfl, rfl, rfl⟩
